import Mathlib

/-!
Verification of the font-fallback core of `crates/next-core/src/next_font/font_fallback.rs`.

Rust `f64` values are embedded as an explicit sum of a rational payload and the
non-finite IEEE values; Rust's derived `PartialEq` on `f64` fields is embedded
as `F64.ieeeEq` (NaN is not equal to itself).  Strings stand in for `RcStr`,
`Nat` for `u32`.
-/

namespace FontFallbackRs

/-- Embedding of Rust `f64` for the purposes of this module: a finite value
carries its rational magnitude; NaN and the two infinities are explicit. -/
inductive F64 where
  | finite (q : ℚ)
  | nan
  | posInf
  | negInf
deriving DecidableEq, Repr

/-- `f64::is_finite`. -/
def F64.isFinite : F64 → Bool
  | .finite _ => true
  | _ => false

/-- IEEE-754 equality, the semantics of Rust's `==` on `f64` (and hence of the
derived `PartialEq` field comparison): NaN compares unequal to everything,
including itself. -/
def F64.ieeeEq : F64 → F64 → Bool
  | .finite a, .finite b => a = b
  | .posInf, .posInf => true
  | .negInf, .negInf => true
  | _, _ => false

/-- `DefaultFallbackFont` (font_fallback.rs lines 7-12): an immutable reference
record for one built-in fallback font. -/
structure DefaultFallbackFont where
  name : String
  capsize_key : String
  az_avg_width : ℚ
  units_per_em : Nat
deriving DecidableEq, Repr

/-- `DEFAULT_SANS_SERIF_FONT` (font_fallback.rs lines 15-21). -/
def DEFAULT_SANS_SERIF_FONT : DefaultFallbackFont :=
  { name := "Arial"
    capsize_key := "arial"
    az_avg_width := 934.5116279069767
    units_per_em := 2048 }

/-- `DEFAULT_SERIF_FONT` (font_fallback.rs lines 23-29). -/
def DEFAULT_SERIF_FONT : DefaultFallbackFont :=
  { name := "Times New Roman"
    capsize_key := "timesNewRoman"
    az_avg_width := 854.3953488372093
    units_per_em := 2048 }

/-- `FontAdjustment` (font_fallback.rs lines 82-88): four `f64` fields. -/
structure FontAdjustment where
  ascent : F64
  descent : F64
  line_gap : F64
  size_adjust : F64
deriving DecidableEq, Repr

/-- The equality the Rust code actually derives for `FontAdjustment`
(`#[derive(PartialEq)]`, line 82): field-wise IEEE `f64` comparison. -/
def FontAdjustment.rustEq (a b : FontAdjustment) : Bool :=
  a.ascent.ieeeEq b.ascent && a.descent.ieeeEq b.descent &&
    a.line_gap.ieeeEq b.line_gap && a.size_adjust.ieeeEq b.size_adjust

/-- `AutomaticFontFallback` (font_fallback.rs lines 33-39). -/
structure AutomaticFontFallback where
  scoped_font_family : String
  local_font_family : String
  adjustment : Option FontAdjustment
deriving DecidableEq, Repr

/-- `FontFallback` (font_fallback.rs lines 42-52): the closed three-case
variant. -/
inductive FontFallback where
  | Automatic (auto : AutomaticFontFallback)
  | Error
  | Manual (names : List String)
deriving DecidableEq, Repr

/-- `FontFallback::has_size_adjust` (font_fallback.rs lines 57-59):
`matches!(self, FontFallback::Automatic(auto) if auto.adjustment.is_some())`. -/
def FontFallback.has_size_adjust : FontFallback → Bool
  | .Automatic auto => auto.adjustment.isSome
  | _ => false

/-- `FontFallbacks` (font_fallback.rs line 63): an ordered sequence of
fallbacks. -/
abbrev FontFallbacks := List FontFallback

/-- `FontFallbacks::has_size_adjust` (font_fallback.rs lines 68-76): loop over
the elements, returning `true` at the first element whose `has_size_adjust`
holds, else `false` after the loop. -/
def FontFallbacks.has_size_adjust : FontFallbacks → Bool
  | [] => false
  | f :: rest =>
      if f.has_size_adjust then true else FontFallbacks.has_size_adjust rest

/-- Modelled from the spec: the generic font families supported by the
Reference Metrics Table (spec section 4.1); only sans-serif and serif exist.
The enum itself is not under `src/`. -/
inductive GenericFamily where
  | sansSerif
  | serif
deriving DecidableEq, Repr

/-- Modelled from the spec: `lookup(generic_family) -> DefaultFallbackFont`
(spec section 4.1); the lookup function is not under `src/`, only the two
constants it returns are. -/
def lookup : GenericFamily → DefaultFallbackFont
  | .sansSerif => DEFAULT_SANS_SERIF_FONT
  | .serif => DEFAULT_SERIF_FONT

/-- Modelled from the spec: the target font's own metrics (spec section 4.3
inputs), a record with `ascent`, `descent`, `line_gap`, `avg_char_width`
(`f64` values) and `units_per_em` (`u32`); the metrics-extraction record is
not under `src/`. -/
structure FontMetrics where
  ascent : F64
  descent : F64
  line_gap : F64
  avg_char_width : F64
  units_per_em : Nat
deriving DecidableEq, Repr

/-- The fallback font's normalized average advance width
`fallback_ratio = fallback.avg_char_width / fallback.units_per_em`
(spec section 4.3 step 1). -/
def fbRatio (f : DefaultFallbackFont) : ℚ :=
  f.az_avg_width / (f.units_per_em : ℚ)

/-- Modelled from the spec: the Metric Adjustment Calculator (spec section
4.3), which is not under `src/`.  Steps 1-3 compute
`size_adjust = target_ratio / fallback_ratio` and
`override_value = (metric / target.units_per_em) / size_adjust`; step 4's
edge cases (zero `fallback_ratio`, or target metrics unavailable/non-finite —
including a zero or non-finite target `avg_char_width`, and a zero target
`units_per_em`, which makes `target_ratio` non-finite) yield `none` instead
of an adjustment. -/
def computeAdjustment (t : FontMetrics) (f : DefaultFallbackFont) :
    Option FontAdjustment :=
  if fbRatio f = 0 then none
  else if t.units_per_em = 0 then none
  else
    match t.ascent, t.descent, t.line_gap, t.avg_char_width with
    | .finite a, .finite d, .finite g, .finite w =>
        if w = 0 then none
        else
          let targetRat := w / (t.units_per_em : ℚ)
          let sizeAdj := targetRat / fbRatio f
          some { ascent := .finite (a / (t.units_per_em : ℚ) / sizeAdj)
                 descent := .finite (d / (t.units_per_em : ℚ) / sizeAdj)
                 line_gap := .finite (g / (t.units_per_em : ℚ) / sizeAdj)
                 size_adjust := .finite sizeAdj }
    | _, _, _, _ => none

/-- The Metric Adjustment Calculator without its zero-`fallback_ratio` guard:
used to state that the guard branch is unreachable for the built-in table
entries. -/
def computeAdjustmentUnguarded (t : FontMetrics) (f : DefaultFallbackFont) :
    Option FontAdjustment :=
  if t.units_per_em = 0 then none
  else
    match t.ascent, t.descent, t.line_gap, t.avg_char_width with
    | .finite a, .finite d, .finite g, .finite w =>
        if w = 0 then none
        else
          let targetRat := w / (t.units_per_em : ℚ)
          let sizeAdj := targetRat / fbRatio f
          some { ascent := .finite (a / (t.units_per_em : ℚ) / sizeAdj)
                 descent := .finite (d / (t.units_per_em : ℚ) / sizeAdj)
                 line_gap := .finite (g / (t.units_per_em : ℚ) / sizeAdj)
                 size_adjust := .finite sizeAdj }
    | _, _, _, _ => none

/-- Modelled from the spec: the Fallback Classifier
`classify(requested_generic_family, manual_list) -> FontFallback`
(spec section 4.2), which is not under `src/`.  A supplied manual list wins
unconditionally; else a known generic family is looked up and an `Automatic`
variant built via the adjustment calculator; else `Error`. -/
def classify (family : Option GenericFamily) (manual : Option (List String))
    (t : FontMetrics) (scopedName localName : String) : FontFallback :=
  match manual with
  | some names => .Manual names
  | none =>
      match family with
      | some g =>
          .Automatic
            { scoped_font_family := scopedName
              local_font_family := localName
              adjustment := computeAdjustment t (lookup g) }
      | none => .Error

/-- The loop of `FontFallbacks::has_size_adjust` computes the OR-reduction
`List.any` of the elementwise predicate. -/
theorem hasSizeAdjust_eq_any (l : List FontFallback) :
    FontFallbacks.has_size_adjust l = l.any FontFallback.has_size_adjust := by
  induction l with
  | nil => rfl
  | cons f rest ih =>
      cases h : f.has_size_adjust <;>
        simp [FontFallbacks.has_size_adjust, h, ih]

/-- The adjustment calculator yields `none` whenever the target's
`avg_char_width` is zero or non-finite, for every fallback entry. -/
theorem computeAdjustment_eq_none_of_bad_width (t : FontMetrics)
    (f : DefaultFallbackFont)
    (h : t.avg_char_width = .finite 0 ∨ t.avg_char_width.isFinite = false) :
    computeAdjustment t f = none := by
  obtain ⟨a, d, lg, w, u⟩ := t
  unfold computeAdjustment
  dsimp only at h ⊢
  split
  · rfl
  split
  · rfl
  · rcases h with h | h
    · cases h
      cases a <;> cases d <;> cases lg <;> simp
    · cases w
      · simp [F64.isFinite] at h
      all_goals cases a <;> cases d <;> cases lg <;> rfl

/-- When the fallback ratio of the chosen entry is nonzero, the
zero-fallback-ratio failure branch of the adjustment calculator is never
taken. -/
theorem computeAdjustment_eq_unguarded (f : DefaultFallbackFont)
    (hf : fbRatio f ≠ 0) (t : FontMetrics) :
    computeAdjustment t f = computeAdjustmentUnguarded t f := by
  unfold computeAdjustment computeAdjustmentUnguarded
  rw [if_neg hf]

/-- C1: `FontFallback::has_size_adjust` is true iff the value is the
`Automatic` variant with a present (`Some`) adjustment; on every `Manual`
variant and on `Error` it is false. -/
theorem C1_has_size_adjust_variant_law :
    (∀ fb : FontFallback,
      fb.has_size_adjust = true ↔
        ∃ auto, fb = .Automatic auto ∧ auto.adjustment.isSome = true) ∧
    (∀ names : List String,
      (FontFallback.Manual names).has_size_adjust = false) ∧
    FontFallback.Error.has_size_adjust = false := by
  refine ⟨?_, fun _ => rfl, rfl⟩
  intro fb
  cases fb with
  | Automatic auto => simp [FontFallback.has_size_adjust]
  | Error => simp [FontFallback.has_size_adjust]
  | Manual names => simp [FontFallback.has_size_adjust]

/-- C2: `FontFallbacks::has_size_adjust` is the OR-reduction of the
elementwise predicate: true iff some element answers true; false on the
empty sequence. -/
theorem C2_fallbacks_or_reduction :
    (∀ l : FontFallbacks,
      FontFallbacks.has_size_adjust l = true ↔
        ∃ fb ∈ l, fb.has_size_adjust = true) ∧
    FontFallbacks.has_size_adjust ([] : FontFallbacks) = false := by
  refine ⟨fun l => ?_, rfl⟩
  rw [hasSizeAdjust_eq_any, List.any_eq_true]

/-- C3 (code evaluation at the failing input): the equality that
`#[derive(PartialEq)]` produces for `FontAdjustment` compares the `f64`
fields with IEEE `==`, so a value carrying a NaN field is not equal to
itself — reflexivity fails, contradicting the bitwise-total equality the
claim (and the manual `impl Eq`) requires. -/
theorem C3_nan_not_reflexive :
    FontAdjustment.rustEq
      { ascent := .nan, descent := .finite 0, line_gap := .finite 0,
        size_adjust := .finite 1 }
      { ascent := .nan, descent := .finite 0, line_gap := .finite 0,
        size_adjust := .finite 1 } = false := rfl

/-- C4: the two canonical `DefaultFallbackFont` constants carry exactly the
claimed name, average a-z advance width and units-per-em, and lookup maps
sans-serif to the former and serif to the latter. -/
theorem C4_default_fonts :
    DEFAULT_SANS_SERIF_FONT.name = "Arial" ∧
    DEFAULT_SANS_SERIF_FONT.az_avg_width = 934.5116279069767 ∧
    DEFAULT_SANS_SERIF_FONT.units_per_em = 2048 ∧
    DEFAULT_SERIF_FONT.name = "Times New Roman" ∧
    DEFAULT_SERIF_FONT.az_avg_width = 854.3953488372093 ∧
    DEFAULT_SERIF_FONT.units_per_em = 2048 ∧
    lookup .sansSerif = DEFAULT_SANS_SERIF_FONT ∧
    lookup .serif = DEFAULT_SERIF_FONT :=
  ⟨rfl, rfl, rfl, rfl, rfl, rfl, rfl, rfl⟩

/-- C5: a supplied non-empty manual list always yields `Manual` with exactly
that list, unchanged, regardless of the generic-family input (manual
precedence law). -/
theorem C5_manual_precedence (family : Option GenericFamily)
    (names : List String) (t : FontMetrics) (s l : String)
    (h : names ≠ []) :
    classify family (some names) t s l = .Manual names := rfl

/-- Witness for C5 at a concrete input. -/
theorem C5_manual_precedence_witness :
    (["Helvetica", "ui-sans-serif"] : List String) ≠ [] ∧
    classify (some .sansSerif) (some ["Helvetica", "ui-sans-serif"])
        ⟨.finite 1950, .finite (-494), .finite 0, .finite 1102, 2048⟩
        "__Roboto_Fallback_c123b8" "Arial" =
      .Manual ["Helvetica", "ui-sans-serif"] :=
  ⟨by decide,
    C5_manual_precedence (some .sansSerif) ["Helvetica", "ui-sans-serif"]
      ⟨.finite 1950, .finite (-494), .finite 0, .finite 1102, 2048⟩
      "__Roboto_Fallback_c123b8" "Arial" (by decide)⟩

/-- C6: with no resolvable generic family and no manual list, classification
returns the payload-free `Error` variant as an ordinary value (the function
is total: nothing is raised or aborted). -/
theorem C6_error_is_ordinary_value (t : FontMetrics) (s l : String) :
    classify none none t s l = .Error := rfl

/-- C7: a zero or non-finite target `avg_char_width` makes the adjustment
computation yield `none`, and classification still produces the `Automatic`
family-name fallback, with `adjustment = None`; no error is propagated. -/
theorem C7_degraded_to_name_only (t : FontMetrics) (g : GenericFamily)
    (s l : String)
    (h : t.avg_char_width = .finite 0 ∨ t.avg_char_width.isFinite = false) :
    computeAdjustment t (lookup g) = none ∧
    classify (some g) none t s l =
      .Automatic { scoped_font_family := s, local_font_family := l,
                   adjustment := none } := by
  have hnone := computeAdjustment_eq_none_of_bad_width t (lookup g) h
  exact ⟨hnone, by unfold classify; dsimp only; rw [hnone]⟩

/-- Witness for C7 at a concrete input (NaN average advance width). -/
theorem C7_degraded_to_name_only_witness :
    computeAdjustment
        ⟨.finite 1950, .finite (-494), .finite 0, .nan, 2048⟩
        (lookup .sansSerif) = none ∧
    classify (some .sansSerif) none
        ⟨.finite 1950, .finite (-494), .finite 0, .nan, 2048⟩ "s" "l" =
      .Automatic { scoped_font_family := "s", local_font_family := "l",
                   adjustment := none } :=
  C7_degraded_to_name_only
    ⟨.finite 1950, .finite (-494), .finite 0, .nan, 2048⟩
    .sansSerif "s" "l" (Or.inr rfl)

/-- C8: when the target's width metrics coincide with the chosen reference
entry's own metrics, `size_adjust` is exactly 1 and every override value is
the plain metric divided by `units_per_em` (identity case of
`size_adjust = target_ratio / fallback_ratio`,
`override = (metric / units_per_em) / size_adjust`). -/
theorem C8_identity_case (f : DefaultFallbackFont) (t : FontMetrics)
    (a d lg : ℚ)
    (hf : f.az_avg_width ≠ 0) (hu : f.units_per_em ≠ 0)
    (ha : t.ascent = .finite a) (hd : t.descent = .finite d)
    (hlg : t.line_gap = .finite lg)
    (hw : t.avg_char_width = .finite f.az_avg_width)
    (hue : t.units_per_em = f.units_per_em) :
    computeAdjustment t f =
      some { ascent := .finite (a / (f.units_per_em : ℚ)),
             descent := .finite (d / (f.units_per_em : ℚ)),
             line_gap := .finite (lg / (f.units_per_em : ℚ)),
             size_adjust := .finite 1 } := by
  obtain ⟨ta, td, tlg, tw, tu⟩ := t
  dsimp only at ha hd hlg hw hue
  subst ha hd hlg hw hue
  have huQ : ((f.units_per_em : ℚ)) ≠ 0 := Nat.cast_ne_zero.mpr hu
  have hratio : fbRatio f ≠ 0 := div_ne_zero hf huQ
  unfold computeAdjustment
  rw [if_neg hratio, if_neg hu]
  dsimp only
  rw [if_neg hf]
  have hone : f.az_avg_width / (f.units_per_em : ℚ) / fbRatio f = 1 :=
    div_self hratio
  rw [hone]
  simp

/-- Witness for C8: the sans-serif table entry against a target with the same
width metrics. -/
theorem C8_identity_case_witness :
    computeAdjustment
        ⟨.finite 1950, .finite (-494), .finite 0,
          .finite 934.5116279069767, 2048⟩
        DEFAULT_SANS_SERIF_FONT =
      some { ascent := .finite (1950 / 2048),
             descent := .finite (-494 / 2048),
             line_gap := .finite 0,
             size_adjust := .finite 1 } := by
  have h := C8_identity_case DEFAULT_SANS_SERIF_FONT
    ⟨.finite 1950, .finite (-494), .finite 0,
      .finite 934.5116279069767, 2048⟩
    1950 (-494) 0 (by norm_num [DEFAULT_SANS_SERIF_FONT])
    (by norm_num [DEFAULT_SANS_SERIF_FONT]) rfl rfl rfl rfl rfl
  simpa [DEFAULT_SANS_SERIF_FONT] using h

/-- C9: the OR-reduction over a fallback sequence is invariant under
permutation of the elements, and it answers true at a head element whose own
predicate holds, whatever the tail (the observable shadow of the loop's
short-circuit). -/
theorem C9_order_invariance :
    (∀ l l' : List FontFallback, l.Perm l' →
        FontFallbacks.has_size_adjust l = FontFallbacks.has_size_adjust l') ∧
    (∀ (f : FontFallback) (rest : List FontFallback),
        f.has_size_adjust = true →
        FontFallbacks.has_size_adjust (f :: rest) = true) := by
  constructor
  · intro l l' hp
    rw [hasSizeAdjust_eq_any, hasSizeAdjust_eq_any]
    have h1 := List.any_eq_true (l := l) (p := FontFallback.has_size_adjust)
    have h2 := List.any_eq_true (l := l') (p := FontFallback.has_size_adjust)
    cases hb : l'.any FontFallback.has_size_adjust with
    | true =>
        obtain ⟨x, hx, hpx⟩ := h2.mp hb
        exact h1.mpr ⟨x, hp.mem_iff.mpr hx, hpx⟩
    | false =>
        cases hbl : l.any FontFallback.has_size_adjust with
        | true =>
            obtain ⟨x, hx, hpx⟩ := h1.mp hbl
            have := h2.mpr ⟨x, hp.mem_iff.mp hx, hpx⟩
            rw [hb] at this
            exact this.symm
        | false => rfl
  · intro f rest hf
    simp [FontFallbacks.has_size_adjust, hf]

/-- Witness for C9: a transposition of a two-element sequence, and a head
with a present adjustment. -/
theorem C9_order_invariance_witness :
    FontFallbacks.has_size_adjust
        [FontFallback.Error, FontFallback.Manual ["x"]] =
      FontFallbacks.has_size_adjust
        [FontFallback.Manual ["x"], FontFallback.Error] ∧
    FontFallbacks.has_size_adjust
        (FontFallback.Automatic
            { scoped_font_family := "s", local_font_family := "l",
              adjustment := some { ascent := .finite 1, descent := .finite 1,
                                   line_gap := .finite 1,
                                   size_adjust := .finite 1 } } ::
          [FontFallback.Error]) = true :=
  ⟨C9_order_invariance.1 _ _
      (List.Perm.swap (FontFallback.Manual ["x"]) FontFallback.Error []),
    C9_order_invariance.2 _ [FontFallback.Error] rfl⟩

/-- C10: both built-in table entries have `units_per_em = 2048` and a
strictly positive `az_avg_width`, their fallback ratio is nonzero, and the
zero-fallback-ratio failure branch of the adjustment calculator is
unreachable when the fallback comes from the built-in table. -/
theorem C10_builtin_table_sound :
    DEFAULT_SANS_SERIF_FONT.units_per_em = 2048 ∧
    DEFAULT_SERIF_FONT.units_per_em = 2048 ∧
    0 < DEFAULT_SANS_SERIF_FONT.az_avg_width ∧
    0 < DEFAULT_SERIF_FONT.az_avg_width ∧
    fbRatio DEFAULT_SANS_SERIF_FONT ≠ 0 ∧
    fbRatio DEFAULT_SERIF_FONT ≠ 0 ∧
    (∀ t, computeAdjustment t DEFAULT_SANS_SERIF_FONT =
        computeAdjustmentUnguarded t DEFAULT_SANS_SERIF_FONT) ∧
    (∀ t, computeAdjustment t DEFAULT_SERIF_FONT =
        computeAdjustmentUnguarded t DEFAULT_SERIF_FONT) := by
  have hsans : fbRatio DEFAULT_SANS_SERIF_FONT ≠ 0 := by
    norm_num [fbRatio, DEFAULT_SANS_SERIF_FONT]
  have hserif : fbRatio DEFAULT_SERIF_FONT ≠ 0 := by
    norm_num [fbRatio, DEFAULT_SERIF_FONT]
  refine ⟨rfl, rfl, by norm_num [DEFAULT_SANS_SERIF_FONT],
    by norm_num [DEFAULT_SERIF_FONT], hsans, hserif,
    computeAdjustment_eq_unguarded _ hsans,
    computeAdjustment_eq_unguarded _ hserif⟩

/-- Witness for C10 at a concrete target. -/
theorem C10_builtin_table_sound_witness :
    fbRatio DEFAULT_SANS_SERIF_FONT ≠ 0 ∧
    computeAdjustment
        ⟨.finite 1950, .finite (-494), .finite 0, .finite 1102, 2048⟩
        DEFAULT_SANS_SERIF_FONT =
      computeAdjustmentUnguarded
        ⟨.finite 1950, .finite (-494), .finite 0, .finite 1102, 2048⟩
        DEFAULT_SANS_SERIF_FONT :=
  ⟨C10_builtin_table_sound.2.2.2.2.1,
    C10_builtin_table_sound.2.2.2.2.2.2.1
      ⟨.finite 1950, .finite (-494), .finite 0, .finite 1102, 2048⟩⟩

end FontFallbackRs
